import Mathlib

/-!
Verification development for the Corsair Commander Pro driver
(`liquidctl/driver/commander_pro.py`).

The driver is embedded shallowly:

* outbound request frames are 64-entry lists of bytes (`List Nat`),
  mirroring `bytearray(_WRITE_LENGTH)` with index assignments modelled by
  `List.set`;
* device interaction is recorded as a trace of `Action`s
  (`clear_enqueued_reports`, `write frame`, `read length`); the Python code
  never branches on the contents of a response, so every trace is a pure
  function of the operation's arguments;
* a raised Python exception is modelled as a `PyError` value returned
  together with the trace of actions that happened before the raise;
* operations that interpret a device response take the 16-byte response as
  an explicit argument (a `List Nat`).
-/

namespace CommanderPro

/-- Fixed outbound frame length (`_WRITE_LENGTH = 64`). -/
def WRITE_LENGTH : Nat := 64

/-- Fixed inbound frame length (`_READ_LENGTH = 16`). -/
def READ_LENGTH : Nat := 16

/-- A zero-filled byte buffer, as produced by `bytearray(n)`. -/
def zeros (n : Nat) : List Nat := List.replicate n 0

-- Command codes from the `_Command` enum (only the ones used below).
namespace Command

def GET_FIRMWARE_VERSION : Nat := 0x02
def GET_THERMOMETER_CONFIG : Nat := 0x10
def GET_TEMPERATURE : Nat := 0x11
def GET_VOLTAGE : Nat := 0x12
def GET_FAN_CONFIG : Nat := 0x20
def GET_FAN_SPEED : Nat := 0x21
def SET_FAN_SPEED_PERCENT : Nat := 0x23
def SET_FAN_SPEED_RPM : Nat := 0x24
def SET_FAN_SPEED_GRAPH : Nat := 0x25
def SET_FAN_TEMP_INFO : Nat := 0x26
def SET_FAN_MODE : Nat := 0x28
def SET_LED_TRIGGER : Nat := 0x33
def SET_LED_CLEAR : Nat := 0x34
def SET_LED_MODE : Nat := 0x35
def SET_LED_TEMP_INFO : Nat := 0x36
def SET_LED_GROUP_CLEAR : Nat := 0x37
def SET_LED_GROUP_MODE : Nat := 0x38
def SET_LED_BRIGHTNESS : Nat := 0x39

end Command

/-- LED channels (`_Channel`). -/
inductive Channel
  | CHANNEL_1
  | CHANNEL_2
deriving DecidableEq

/-- Wire value of a channel. -/
def Channel.value : Channel → Nat
  | .CHANNEL_1 => 0x00
  | .CHANNEL_2 => 0x01

/-- LED fan identifiers (`_FanID`): the strided LED-group offsets. -/
inductive FanID
  | FAN_1
  | FAN_2
  | FAN_3
  | FAN_4
  | FAN_5
  | FAN_6
deriving DecidableEq

/-- Wire value of a `_FanID` member. -/
def FanID.value : FanID → Nat
  | .FAN_1 => 0x00
  | .FAN_2 => 0x0C
  | .FAN_3 => 0x18
  | .FAN_4 => 0x24
  | .FAN_5 => 0x30
  | .FAN_6 => 0x3C

/-- The `_FanID` member for a 0-indexed fan slot (FAN_1 is slot 0). -/
def fanIDOfSlot : Fin 6 → FanID
  | 0 => .FAN_1
  | 1 => .FAN_2
  | 2 => .FAN_3
  | 3 => .FAN_4
  | 4 => .FAN_5
  | 5 => .FAN_6

/-- LED hardware types (`_LedType`). -/
inductive LedType
  | STRIP
  | HD_FAN
  | SP_FAN
  | M1_FAN
deriving DecidableEq

/-- Wire value of an LED type. -/
def LedType.value : LedType → Nat
  | .STRIP => 0x0A
  | .HD_FAN => 0x0C
  | .SP_FAN => 0x01
  | .M1_FAN => 0x04

/-- LED effects (`_Effect`). -/
inductive Effect
  | RAINBOW_WAVE
  | COLOUR_SHIFT
  | COLOUR_PULSE
  | COLOUR_WAVE
  | STATIC
  | TEMPERATURE
  | VISOR
  | MARQUEE
  | BLINK
  | SEQUENTIAL
  | RAINBOW
deriving DecidableEq

/-- Wire value of an effect. -/
def Effect.value : Effect → Nat
  | .RAINBOW_WAVE => 0x00
  | .COLOUR_SHIFT => 0x01
  | .COLOUR_PULSE => 0x02
  | .COLOUR_WAVE => 0x03
  | .STATIC => 0x04
  | .TEMPERATURE => 0x05
  | .VISOR => 0x06
  | .MARQUEE => 0x07
  | .BLINK => 0x08
  | .SEQUENTIAL => 0x09
  | .RAINBOW => 0x0A

/-- LED effect speed tiers (`_Speed`). -/
inductive EffectSpeed
  | HIGH
  | MEDIUM
  | SLOW
deriving DecidableEq

/-- Wire value of a speed tier. -/
def EffectSpeed.value : EffectSpeed → Nat
  | .HIGH => 0x00
  | .MEDIUM => 0x01
  | .SLOW => 0x02

/-- LED effect directions (`_Direction`). -/
inductive Direction
  | BACKWARD
  | FORWARD
deriving DecidableEq

/-- Wire value of a direction. -/
def Direction.value : Direction → Nat
  | .BACKWARD => 0x00
  | .FORWARD => 0x01

/-- LED colour modes (`_ColourMode`). -/
inductive ColourMode
  | ALTERNATING
  | RANDOM
deriving DecidableEq

/-- Wire value of a colour mode. -/
def ColourMode.value : ColourMode → Nat
  | .ALTERNATING => 0x00
  | .RANDOM => 0x01

/-- LED brightness tiers (`_Brightness`). -/
inductive Brightness
  | MAX
  | MEDIUM
  | LOW
  | ZERO
deriving DecidableEq

/-- Wire value of a brightness tier. -/
def Brightness.value : Brightness → Nat
  | .MAX => 0x64
  | .MEDIUM => 0x42
  | .LOW => 0x21
  | .ZERO => 0x00

/-- One observable interaction with the HID transport. -/
inductive Action
  | clear
  | write (frame : List Nat)
  | read (len : Nat)
deriving DecidableEq

/-- A raised Python exception. -/
inductive PyError
  | valueError (msg : String)
  | nameError (name : String)
  | overflowError
deriving DecidableEq

/-- `int.to_bytes(n, length = 2, byteorder = 'big')`: the two bytes of an
unsigned 16-bit big-endian encoding, or `OverflowError` when `n` is negative
or does not fit in two bytes. -/
def to_bytes_be2 (n : Int) : Except PyError (Nat × Nat) :=
  if n < 0 ∨ n > 65535 then .error .overflowError
  else .ok (n.toNat / 256, n.toNat % 256)

/-- One fan's LED programming data (`FanConfig.__init__`). Each colour is an
RGB triple. -/
structure FanConfig where
  fan : FanID
  effect : Effect
  speed : EffectSpeed
  direction : Direction
  colourMode : ColourMode
  colour1 : Nat × Nat × Nat
  colour2 : Nat × Nat × Nat
  colour3 : Nat × Nat × Nat
deriving DecidableEq

/-- A channel's LED configuration (`LedConfig.__init__`). -/
structure LedConfig where
  channel : Channel
  ledType : LedType
  brightness : Brightness
  fanConfigs : List FanConfig
deriving DecidableEq

/-- The per-iteration mutation of `buf` in `LedConfig.apply`'s loop over
`fanConfigs`: bytes 2 and 4-7 are always overwritten, and bytes 9-17 are
overwritten with the colour triples only when the colour mode is not
`RANDOM` (the source leaves them untouched otherwise). -/
def updateGroupBuf (buf : List Nat) (fanConfig : FanConfig) : List Nat :=
  let buf := (buf.set 2 fanConfig.fan.value).set 4 fanConfig.effect.value
  let buf := (buf.set 5 fanConfig.speed.value).set 6 fanConfig.direction.value
  let buf := buf.set 7 fanConfig.colourMode.value
  if fanConfig.colourMode ≠ ColourMode.RANDOM then
    let buf := (buf.set 9 fanConfig.colour1.1).set 10 fanConfig.colour1.2.1
    let buf := (buf.set 11 fanConfig.colour1.2.2).set 12 fanConfig.colour2.1
    let buf := (buf.set 13 fanConfig.colour2.2.1).set 14 fanConfig.colour2.2.2
    let buf := (buf.set 15 fanConfig.colour3.1).set 16 fanConfig.colour3.2.1
    buf.set 17 fanConfig.colour3.2.2
  else
    buf

/-- The `for fanConfig in self.fanConfigs` loop of `LedConfig.apply`: mutate
`buf`, write it, read one response, continue with the mutated `buf`. -/
def groupBurst (buf : List Nat) : List FanConfig → List Action
  | [] => []
  | fanConfig :: rest =>
    let buf2 := updateGroupBuf buf fanConfig
    Action.write buf2 :: Action.read READ_LENGTH :: groupBurst buf2 rest

/-- `init1` of `LedConfig.apply`: the group-clear frame. -/
def ledInit1 : List Nat := (zeros WRITE_LENGTH).set 0 Command.SET_LED_GROUP_CLEAR

/-- `init2` of `LedConfig.apply`: the pixel-clear frame. -/
def ledInit2 : List Nat := (zeros WRITE_LENGTH).set 0 Command.SET_LED_CLEAR

/-- `init3` of `LedConfig.apply`: the brightness frame. -/
def ledInit3 (cfg : LedConfig) : List Nat :=
  (((zeros WRITE_LENGTH).set 0 Command.SET_LED_BRIGHTNESS).set 1 0x00).set 2 cfg.brightness.value

/-- `init4` of `LedConfig.apply`: the group-mode frame. -/
def ledInit4 : List Nat :=
  (((zeros WRITE_LENGTH).set 0 Command.SET_LED_GROUP_MODE).set 1 0x00).set 2 0x01

/-- `final` of `LedConfig.apply`: the trigger frame. -/
def ledFinal : List Nat :=
  ((zeros WRITE_LENGTH).set 0 Command.SET_LED_TRIGGER).set 2 0xff

/-- The initial value of the shared per-group `buf` of `LedConfig.apply`,
before the loop runs. -/
def ledModeBuf (cfg : LedConfig) : List Nat :=
  ((((zeros WRITE_LENGTH).set 0 Command.SET_LED_MODE).set 1 cfg.channel.value).set
    3 cfg.ledType.value).set 8 0xff

/-- `LedConfig.apply`: the complete transport trace of applying an LED
channel configuration. The source ignores every response, so the trace does
not depend on any response contents. -/
def LedConfig.apply (cfg : LedConfig) : List Action :=
  Action.clear ::
  Action.write ledInit1 :: Action.read READ_LENGTH ::
  Action.write ledInit2 :: Action.read READ_LENGTH ::
  Action.write (ledInit3 cfg) :: Action.read READ_LENGTH ::
  Action.write ledInit4 :: Action.read READ_LENGTH ::
  (groupBurst (ledModeBuf cfg) cfg.fanConfigs ++
    [Action.write ledFinal, Action.read READ_LENGTH])

/-- The frames carried by `write` actions of a trace, in order. -/
def writtenFrames : List Action → List (List Nat)
  | [] => []
  | .write f :: rest => f :: writtenFrames rest
  | .clear :: rest => writtenFrames rest
  | .read _ :: rest => writtenFrames rest

/-- The number of stale-response clears in a trace. -/
def countClears : List Action → Nat
  | [] => 0
  | .clear :: rest => countClears rest + 1
  | .write _ :: rest => countClears rest
  | .read _ :: rest => countClears rest

/-- `CommanderPro.set_speed_percent`: validate channel and duty, then clear,
write a frame with the command code, the channel and the duty, and read one
response. -/
def set_speed_percent (channel duty : Int) : List Action × Option PyError :=
  if channel < 0 ∨ channel > 5 then
    ([], some (.valueError "Channel must be in range [0, 5]"))
  else if duty > 100 ∨ duty < 0 then
    ([], some (.valueError "Fan speed greater than 100% or less than 0% is impossible"))
  else
    ([Action.clear,
      Action.write ((((zeros WRITE_LENGTH).set 0 Command.SET_FAN_SPEED_PERCENT).set
        1 channel.toNat).set 2 duty.toNat),
      Action.read READ_LENGTH], none)

/-- `CommanderPro.set_speed_rpm`: validate fan and speed, then build the
frame. A speed above 2500 only logs a warning (no trace effect, no error).
The source then assigns `buf[1] = channel_index`, a name that is not defined
anywhere in the function (the parameter is `fan`), so every call that passes
validation raises `NameError` before any transport interaction. -/
def set_speed_rpm (fan speed : Int) : List Action × Option PyError :=
  if fan < 0 ∨ fan > 5 then
    ([], some (.valueError "fan must be in range [0, 5]"))
  else if speed < 0 then
    ([], some (.valueError "Negative speed not allowed"))
  else if speed > 65535 then
    ([], some (.valueError "speed must be < 65535"))
  else
    ([], some (.nameError "channel_index"))

/-- One iteration of the frame-filling loop of `set_speed_graph`:
`temps[i] * 100` and `speeds[i]` as big-endian byte pairs at strides 2 from
offsets 3 and 15. `int.to_bytes` raises `OverflowError` for out-of-range
values. -/
def graphStep (temps speeds : List Int) (buf : List Nat) (i : Nat) :
    Except PyError (List Nat) := do
  let tb ← to_bytes_be2 (temps.getD i 0 * 100)
  let sb ← to_bytes_be2 (speeds.getD i 0)
  pure ((((buf.set (3 + 2 * i) tb.1).set (4 + 2 * i) tb.2).set
    (15 + 2 * i) sb.1).set (16 + 2 * i) sb.2)

/-- The `for i in range(0, 6)` loop of `set_speed_graph`. -/
def graphFill (temps speeds : List Int) (buf : List Nat) :
    Except PyError (List Nat) :=
  (List.range 6).foldlM (graphStep temps speeds) buf

/-- `CommanderPro.set_speed_graph`: validations (note the source accepts
`fan = 6`: the check is `fan > 6`), then frame build, then clear, write and
one read. -/
def set_speed_graph (thermometer fan : Int) (temps speeds : List Int) :
    List Action × Option PyError :=
  if fan < 0 ∨ fan > 6 then
    ([], some (.valueError "fan number should be in range [0, 5]"))
  else if thermometer < 0 ∨ thermometer > 3 then
    ([], some (.valueError "thermometer should be in range [0, 3]"))
  else if temps.length ≠ 6 then
    ([], some (.valueError "Need to provide 6 temperatures"))
  else if speeds.length ≠ 6 then
    ([], some (.valueError "Need to provide 6 speeds"))
  else
    match graphFill temps speeds ((((zeros WRITE_LENGTH).set
      0 Command.SET_FAN_SPEED_GRAPH).set 1 fan.toNat).set 2 thermometer.toNat) with
    | .error e => ([], some e)
    | .ok buf => ([Action.clear, Action.write buf, Action.read READ_LENGTH], none)

/-- `CommanderPro.notify_led_temperature`: validations, then a frame write
and one read, with no `clear_enqueued_reports` call anywhere. -/
def notify_led_temperature (channel temperature : Int) :
    List Action × Option PyError :=
  if channel < 0 ∨ channel > 1 then
    ([], some (.valueError "channel must be 0 or 1"))
  else if temperature < 0 ∨ temperature > 65535 then
    ([], some (.valueError "temperature must be in range [0..65535]"))
  else
    ([Action.write (((((zeros WRITE_LENGTH).set 0 Command.SET_LED_TEMP_INFO).set
        1 channel.toNat).set 3 (temperature.toNat / 256)).set
        4 (temperature.toNat % 256)),
      Action.read READ_LENGTH], none)

/-- The temperature encoding used by `send_temperature_info`:
`int.to_bytes(temperature * 100, length = 2, byteorder = 'big')`. -/
def temp_encode (t : Int) : Except PyError (Nat × Nat) :=
  to_bytes_be2 (t * 100)

/-- The temperature decoding used by `get_temperature`:
`int.from_bytes(resp[1:3], byteorder = 'big') / 100` (Python true division,
an exact rational here). -/
def temp_decode (b1 b2 : Nat) : ℚ :=
  ((b1 : ℚ) * 256 + (b2 : ℚ)) / 100

/-- Encode then decode a temperature, as a curve/temperature-info frame
writes it and a thermometer read interprets it. -/
def temp_roundtrip (t : Int) : Except PyError ℚ :=
  (temp_encode t).map (fun p => temp_decode p.1 p.2)

/-- `CommanderPro.send_temperature_info`: validate the sensor index, then a
frame write and one read, with no `clear_enqueued_reports` call. -/
def send_temperature_info (sensor_index temperature : Int) :
    List Action × Option PyError :=
  if sensor_index > 255 ∨ sensor_index < 0 then
    ([], some (.valueError "sensor_index must be in range [0, 255] (probably less)"))
  else
    match temp_encode temperature with
    | .error e => ([], some e)
    | .ok tb =>
      ([Action.write (((((zeros WRITE_LENGTH).set 0 Command.SET_FAN_TEMP_INFO).set
          1 sensor_index.toNat).set 2 tb.1).set 3 tb.2),
        Action.read READ_LENGTH], none)

/-- `CommanderPro.set_fan_mode`: validations, then a frame write and one
read, with no `clear_enqueued_reports` call. -/
def set_fan_mode (fan mode : Int) : List Action × Option PyError :=
  if fan < 0 ∨ fan > 5 then
    ([], some (.valueError "fan must be in range [0..5]"))
  else if mode < 0 ∨ mode > 2 then
    ([], some (.valueError "mode must be in range [0..2]"))
  else
    ([Action.write (((((zeros WRITE_LENGTH).set 0 Command.SET_FAN_MODE).set
        1 0x02).set 2 fan.toNat).set 3 mode.toNat),
      Action.read READ_LENGTH], none)

/-- `CommanderPro.get_temperature`: validate the index, then clear, write
and one read; the 16-byte response (passed explicitly here) is decoded as a
big-endian pair divided by 100. -/
def get_temperature (index : Int) (resp : List Nat) :
    List Action × Except PyError ℚ :=
  if index < 0 ∨ index > 3 then
    ([], .error (.valueError "Thermometer index must be in range [0, 3]"))
  else
    ([Action.clear,
      Action.write (((zeros WRITE_LENGTH).set 0 Command.GET_TEMPERATURE).set 1 index.toNat),
      Action.read READ_LENGTH],
      .ok (temp_decode (resp.getD 1 0) (resp.getD 2 0)))

/-- `CommanderPro.get_fan_speed_rpm`: clear, write and one read; the
response is decoded as a big-endian pair. -/
def get_fan_speed_rpm (fanIndex : Nat) (resp : List Nat) :
    List Action × Nat :=
  ([Action.clear,
    Action.write (((zeros WRITE_LENGTH).set 0 Command.GET_FAN_SPEED).set 1 fanIndex),
    Action.read READ_LENGTH],
    resp.getD 1 0 * 256 + resp.getD 2 0)

/-- A status value: either a textual status or a numeric reading. -/
inductive SVal
  | str (s : String)
  | num (q : ℚ)
deriving DecidableEq

/-- A `(property, value, unit)` status tuple. -/
structure StatusSample where
  label : String
  value : SVal
  unit : String
deriving DecidableEq

/-- The per-fan decoding loop of `CommanderPro.get_fan_status`, over the
16-byte `GET_FAN_CONFIG` response. The device I/O around it (clear, write,
read, and the nested `get_fan_speed_rpm` calls) is abstracted: `resp` is the
configuration response and `speedOf i` is the RPM reading the nested call
returns for fan index `i`. -/
def get_fan_status (resp : List Nat) (speedOf : Nat → Nat) : List StatusSample :=
  (List.range' 1 6).foldl (fun properties i =>
    let propertyName := "Fan " ++ toString i
    let status :=
      if resp.getD i 0 = 0x00 then "disconnected"
      else if resp.getD i 0 = 0x01 then "connected (3 pins)"
      else if resp.getD i 0 = 0x02 then "connected (4 pins)"
      else "unknown"
    let properties := properties ++ [⟨propertyName ++ " status", .str status, ""⟩]
    if resp.getD i 0 = 0x01 ∨ resp.getD i 0 = 0x02 then
      properties ++ [⟨propertyName ++ " speed", .num (speedOf (i - 1)), "rpm"⟩]
    else properties) []

/-- The per-sensor decoding loop of `CommanderPro.get_thermometer_status`,
over the 16-byte `GET_THERMOMETER_CONFIG` response; `tempOf i` is the
reading the nested `get_temperature` call returns for thermometer `i`. -/
def get_thermometer_status (resp : List Nat) (tempOf : Nat → ℚ) : List StatusSample :=
  (List.range' 1 4).foldl (fun config i =>
    let propertyName := "Thermometer " ++ toString i
    let status :=
      if resp.getD i 0 = 0x00 then "disconnected"
      else if resp.getD i 0 = 0x01 then "connected"
      else "unknown"
    let config := config ++ [⟨propertyName ++ " status", .str status, ""⟩]
    if resp.getD i 0 = 0x01 then
      config ++ [⟨propertyName ++ " temperature", .num (tempOf (i - 1)), "°C"⟩]
    else config) []

/-- A strict write-then-read burst: each frame written, each write followed
by exactly one 16-byte read. -/
def wrSeq : List (List Nat) → List Action
  | [] => []
  | f :: rest => Action.write f :: Action.read READ_LENGTH :: wrSeq rest

/-- The successive values taken by the shared `buf` in `LedConfig.apply`'s
loop: the frame actually written for each fan config, in caller order. -/
def groupFrameList (buf : List Nat) : List FanConfig → List (List Nat)
  | [] => []
  | fanConfig :: rest =>
    let buf2 := updateGroupBuf buf fanConfig
    buf2 :: groupFrameList buf2 rest

/-- All frames written by `LedConfig.apply`, in order: the four priming
frames, the per-group frames, and the trigger frame. -/
def ledFrames (cfg : LedConfig) : List (List Nat) :=
  [ledInit1, ledInit2, ledInit3 cfg, ledInit4] ++
    groupFrameList (ledModeBuf cfg) cfg.fanConfigs ++ [ledFinal]

/-- Per-slot fan status samples as the decoding loop of `get_fan_status`
produces them: one connectivity sample, plus one speed sample exactly when
the status byte is 1 (3-pin) or 2 (4-pin). -/
def fanSlotSpec (i code : Nat) (speedOf : Nat → Nat) : List StatusSample :=
  ⟨"Fan " ++ toString i ++ " status",
    .str (if code = 0x00 then "disconnected"
      else if code = 0x01 then "connected (3 pins)"
      else if code = 0x02 then "connected (4 pins)"
      else "unknown"), ""⟩ ::
  (if code = 0x01 ∨ code = 0x02 then
    [⟨"Fan " ++ toString i ++ " speed", .num (speedOf (i - 1)), "rpm"⟩]
  else [])

/-- Per-slot thermometer status samples as the decoding loop of
`get_thermometer_status` produces them: one connectivity sample, plus one
temperature sample exactly when the status byte is 1. -/
def thermoSlotSpec (i code : Nat) (tempOf : Nat → ℚ) : List StatusSample :=
  ⟨"Thermometer " ++ toString i ++ " status",
    .str (if code = 0x00 then "disconnected"
      else if code = 0x01 then "connected"
      else "unknown"), ""⟩ ::
  (if code = 0x01 then
    [⟨"Thermometer " ++ toString i ++ " temperature", .num (tempOf (i - 1)), "°C"⟩]
  else [])

/-- An alternating-mode fan config with distinctive colour bytes. -/
def leakConfigA : FanConfig :=
  ⟨.FAN_1, .STATIC, .HIGH, .FORWARD, .ALTERNATING, (1, 2, 3), (4, 5, 6), (7, 8, 9)⟩

/-- A random-mode fan config programmed after `leakConfigA`. -/
def leakConfigB : FanConfig :=
  ⟨.FAN_2, .STATIC, .HIGH, .FORWARD, .RANDOM, (0, 0, 0), (0, 0, 0), (0, 0, 0)⟩

/-- A channel configuration programming `leakConfigA` then `leakConfigB`. -/
def leakLedConfig : LedConfig :=
  ⟨.CHANNEL_1, .HD_FAN, .MAX, [leakConfigA, leakConfigB]⟩

/-- The frame the spec's end-to-end curve scenario expects:
command byte 0x25, fan and thermometer bytes zero, the six temperatures
times 100 as big-endian pairs at offsets 3-14, the six speeds as big-endian
pairs at offsets 15-26, all other bytes zero. -/
def graphExampleFrame : List Nat :=
  [0x25, 0, 0,
   7, 208, 11, 184, 15, 160, 23, 112, 31, 64, 39, 16,
   3, 32, 3, 232, 4, 226, 5, 220, 7, 208, 9, 196] ++
  List.replicate 37 0

/-- A single-group configuration for LED fan slot 3 (0-indexed). -/
def slot3LedConfig : LedConfig :=
  ⟨.CHANNEL_1, .HD_FAN, .MAX,
    [⟨.FAN_4, .STATIC, .HIGH, .FORWARD, .ALTERNATING, (0, 0, 0), (0, 0, 0), (0, 0, 0)⟩]⟩

end CommanderPro

namespace CommanderPro

/-- Setting one position of a buffer leaves every other position unchanged. -/
theorem getD_set_ne : ∀ (l : List Nat) (i j : Nat), i ≠ j → ∀ (v d : Nat),
    (l.set i v).getD j d = l.getD j d
  | [], _, _, _, _, _ => rfl
  | _ :: _, 0, 0, h, _, _ => absurd rfl h
  | _ :: _, 0, _ + 1, _, _, _ => rfl
  | _ :: _, _ + 1, 0, _, _, _ => rfl
  | _ :: l, i + 1, j + 1, h, v, d => getD_set_ne l i j (fun e => h (by omega)) v d

/-- Byte 0 of the shared group buffer survives each loop iteration. -/
theorem updateGroupBuf_getD_zero (buf : List Nat) (fanConfig : FanConfig) :
    (updateGroupBuf buf fanConfig).getD 0 0 = buf.getD 0 0 := by
  unfold updateGroupBuf
  split <;> cases buf <;> rfl

/-- The loop of `LedConfig.apply` is the write-read burst of the successive
buffer states. -/
theorem groupBurst_eq_wrSeq (buf : List Nat) :
    ∀ fanConfigs : List FanConfig,
      groupBurst buf fanConfigs = wrSeq (groupFrameList buf fanConfigs)
  | [] => rfl
  | fc :: rest => by
    simp only [groupBurst, groupFrameList, wrSeq]
    exact congrArg _ (congrArg _ (groupBurst_eq_wrSeq _ rest))

/-- `wrSeq` distributes over append. -/
theorem wrSeq_append (l1 l2 : List (List Nat)) :
    wrSeq (l1 ++ l2) = wrSeq l1 ++ wrSeq l2 := by
  induction l1 with
  | nil => rfl
  | cons f rest ih => simp [wrSeq, ih]

/-- A write-read burst contains no stale-response clear. -/
theorem clear_not_mem_wrSeq : ∀ fs : List (List Nat), Action.clear ∉ wrSeq fs
  | [] => by simp [wrSeq]
  | f :: rest => by
    simp [wrSeq]
    exact clear_not_mem_wrSeq rest

/-- A write-read burst contains no stale-response clear at all. -/
theorem countClears_wrSeq : ∀ fs : List (List Nat), countClears (wrSeq fs) = 0
  | [] => rfl
  | _ :: rest => countClears_wrSeq rest

/-- `LedConfig.apply` is one clear followed by the write-read burst of all
its frames. -/
theorem led_apply_eq (cfg : LedConfig) :
    cfg.apply = Action.clear :: wrSeq (ledFrames cfg) := by
  unfold LedConfig.apply ledFrames
  rw [wrSeq_append, wrSeq_append, groupBurst_eq_wrSeq]
  simp [wrSeq]

/-- Command bytes of the per-group frames: all `SET_LED_MODE`. -/
theorem groupFrameList_cmd : ∀ (fanConfigs : List FanConfig) (buf : List Nat),
    (groupFrameList buf fanConfigs).map (fun f => f.getD 0 0) =
      List.replicate fanConfigs.length (buf.getD 0 0)
  | [], _ => rfl
  | fc :: rest, buf => by
    simp only [groupFrameList, List.map, List.length, List.replicate,
      updateGroupBuf_getD_zero]
    rw [groupFrameList_cmd rest, updateGroupBuf_getD_zero]

end CommanderPro

namespace CommanderPro

/-- A fold that appends a per-element block is the concatenation of the
blocks. -/
theorem foldl_append_bind {α : Type} (g : Nat → List α) (body : List α → Nat → List α)
    (hb : ∀ acc i, body acc i = acc ++ g i) :
    ∀ (l : List Nat) (init : List α), l.foldl body init = init ++ l.flatMap g := by
  intro l
  induction l with
  | nil => intro init; simp
  | cons hd tl ih =>
    intro init
    simp only [List.foldl, hb, List.flatMap_cons, ih, List.append_assoc]

/-- The fan decoding loop produces exactly the per-slot samples. -/
theorem get_fan_status_eq (resp : List Nat) (speedOf : Nat → Nat) :
    get_fan_status resp speedOf =
      (List.range' 1 6).flatMap (fun i => fanSlotSpec i (resp.getD i 0) speedOf) := by
  unfold get_fan_status
  rw [foldl_append_bind (fun i => fanSlotSpec i (resp.getD i 0) speedOf)]
  · simp
  · intro acc i
    unfold fanSlotSpec
    generalize resp.getD i 0 = x
    by_cases h : x = 0x01 ∨ x = 0x02
    · rcases h with h | h <;> simp [h]
    · simp [h]

/-- The thermometer decoding loop produces exactly the per-slot samples. -/
theorem get_thermometer_status_eq (resp : List Nat) (tempOf : Nat → ℚ) :
    get_thermometer_status resp tempOf =
      (List.range' 1 4).flatMap (fun i => thermoSlotSpec i (resp.getD i 0) tempOf) := by
  unfold get_thermometer_status
  rw [foldl_append_bind (fun i => thermoSlotSpec i (resp.getD i 0) tempOf)]
  · simp
  · intro acc i
    unfold thermoSlotSpec
    generalize resp.getD i 0 = x
    by_cases h : x = 0x01 <;> simp [h]

end CommanderPro

namespace CommanderPro

/-- Claim C1 (code bug): in `LedConfig.apply` the shared `buf` is reused
across group configs, so the per-group frame of a RANDOM-mode config that
follows an ALTERNATING-mode config carries the previous config's colour
bytes in positions 9-17, not zeros: in `leakLedConfig` the sixth written
frame is the RANDOM group frame (byte 7 = RANDOM) and its bytes 9-17 are
the colours 1..9 of the earlier group. -/
theorem led_random_colour_leak :
    ((writtenFrames leakLedConfig.apply).getD 5 []).getD 7 0 = ColourMode.RANDOM.value ∧
    (((writtenFrames leakLedConfig.apply).getD 5 []).drop 9).take 9 =
      [1, 2, 3, 4, 5, 6, 7, 8, 9] := by
  decide

/-- Claim C2 (code bug): every call of `set_speed_rpm` that passes
validation raises `NameError` on the undefined name `channel_index` before
any frame is written; no frame with byte 0 = 0x24 is ever issued. -/
theorem set_speed_rpm_name_error :
    set_speed_rpm 0 1000 = ([], some (.nameError "channel_index")) := by
  rfl

/-- Claim C3 (code bug): `set_speed_graph` accepts fan index 6 (its check
is `fan > 6`, while its own error message documents the range [0, 5]): at
fan = 6 no error is raised and a frame with byte 1 = 6 is built and sent. -/
theorem set_speed_graph_accepts_fan6 :
    (set_speed_graph 0 6 [20, 20, 20, 20, 20, 20] [500, 500, 500, 500, 500, 500]).2 = none ∧
    (writtenFrames
      (set_speed_graph 0 6 [20, 20, 20, 20, 20, 20] [500, 500, 500, 500, 500, 500]).1).map
      (fun f => f.getD 1 0) = [6] := by
  decide

/-- Claim C4, counterexample: `notify_led_temperature` issues its frame
with no `clear_enqueued_reports` anywhere in its trace, contradicting the
claim that the LED temperature notification is preceded by the
stale-response clear. -/
theorem notify_led_temperature_no_clear_cex :
    countClears (notify_led_temperature 0 25).1 = 0 ∧
    (writtenFrames (notify_led_temperature 0 25).1).length = 1 := by
  decide

/-- Claim C4 (amended): the LED sequence clears exactly once, before its
first priming frame; `set_speed_percent`, `set_speed_graph`,
`get_temperature` and `get_fan_speed_rpm` clear immediately before their
single write; but `notify_led_temperature`, `send_temperature_info` and
`set_fan_mode` write their frames with no clear at all. -/
theorem clear_discipline_amended :
    (∀ cfg : LedConfig,
      cfg.apply.head? = some Action.clear ∧ countClears cfg.apply = 1) ∧
    (∀ channel duty : Int, (set_speed_percent channel duty).1 ≠ [] →
      ∃ f, (set_speed_percent channel duty).1 =
        [Action.clear, Action.write f, Action.read READ_LENGTH]) ∧
    (∀ (thermometer fan : Int) (temps speeds : List Int),
      (set_speed_graph thermometer fan temps speeds).1 ≠ [] →
      ∃ f, (set_speed_graph thermometer fan temps speeds).1 =
        [Action.clear, Action.write f, Action.read READ_LENGTH]) ∧
    (∀ (index : Int) (resp : List Nat), (get_temperature index resp).1 ≠ [] →
      ∃ f, (get_temperature index resp).1 =
        [Action.clear, Action.write f, Action.read READ_LENGTH]) ∧
    (∀ (fanIndex : Nat) (resp : List Nat),
      ∃ f, (get_fan_speed_rpm fanIndex resp).1 =
        [Action.clear, Action.write f, Action.read READ_LENGTH]) ∧
    (∀ channel temperature : Int, (notify_led_temperature channel temperature).1 ≠ [] →
      ∃ f, (notify_led_temperature channel temperature).1 =
        [Action.write f, Action.read READ_LENGTH]) ∧
    (∀ sensor_index temperature : Int,
      (send_temperature_info sensor_index temperature).1 ≠ [] →
      ∃ f, (send_temperature_info sensor_index temperature).1 =
        [Action.write f, Action.read READ_LENGTH]) ∧
    (∀ fan mode : Int, (set_fan_mode fan mode).1 ≠ [] →
      ∃ f, (set_fan_mode fan mode).1 = [Action.write f, Action.read READ_LENGTH]) := by
  refine ⟨?_, ?_, ?_, ?_, ?_, ?_, ?_, ?_⟩
  · intro cfg
    rw [led_apply_eq]
    refine ⟨rfl, ?_⟩
    show countClears (wrSeq (ledFrames cfg)) + 1 = 1
    rw [countClears_wrSeq]
  · intro channel duty h
    unfold set_speed_percent at h ⊢
    by_cases h1 : channel < 0 ∨ channel > 5
    · rw [if_pos h1] at h
      exact absurd rfl h
    · rw [if_neg h1] at h ⊢
      by_cases h2 : duty > 100 ∨ duty < 0
      · rw [if_pos h2] at h
        exact absurd rfl h
      · rw [if_neg h2]
        exact ⟨_, rfl⟩
  · intro thermometer fan temps speeds h
    unfold set_speed_graph at h ⊢
    by_cases h1 : fan < 0 ∨ fan > 6
    · rw [if_pos h1] at h
      exact absurd rfl h
    · rw [if_neg h1] at h ⊢
      by_cases h2 : thermometer < 0 ∨ thermometer > 3
      · rw [if_pos h2] at h
        exact absurd rfl h
      · rw [if_neg h2] at h ⊢
        by_cases h3 : temps.length ≠ 6
        · rw [if_pos h3] at h
          exact absurd rfl h
        · rw [if_neg h3] at h ⊢
          by_cases h4 : speeds.length ≠ 6
          · rw [if_pos h4] at h
            exact absurd rfl h
          · rw [if_neg h4] at h ⊢
            cases hg : graphFill temps speeds ((((zeros WRITE_LENGTH).set
              0 Command.SET_FAN_SPEED_GRAPH).set 1 fan.toNat).set 2 thermometer.toNat) with
            | error e =>
              rw [hg] at h
              exact absurd rfl h
            | ok buf =>
              exact ⟨buf, rfl⟩
  · intro index resp h
    unfold get_temperature at h ⊢
    by_cases h1 : index < 0 ∨ index > 3
    · rw [if_pos h1] at h
      exact absurd rfl h
    · rw [if_neg h1]
      exact ⟨_, rfl⟩
  · intro fanIndex resp
    exact ⟨_, rfl⟩
  · intro channel temperature h
    unfold notify_led_temperature at h ⊢
    by_cases h1 : channel < 0 ∨ channel > 1
    · rw [if_pos h1] at h
      exact absurd rfl h
    · rw [if_neg h1] at h ⊢
      by_cases h2 : temperature < 0 ∨ temperature > 65535
      · rw [if_pos h2] at h
        exact absurd rfl h
      · rw [if_neg h2]
        exact ⟨_, rfl⟩
  · intro sensor_index temperature h
    unfold send_temperature_info at h ⊢
    by_cases h1 : sensor_index > 255 ∨ sensor_index < 0
    · rw [if_pos h1] at h
      exact absurd rfl h
    · rw [if_neg h1] at h ⊢
      cases hg : temp_encode temperature with
      | error e =>
        rw [hg] at h
        exact absurd rfl h
      | ok tb =>
        exact ⟨_, rfl⟩
  · intro fan mode h
    unfold set_fan_mode at h ⊢
    by_cases h1 : fan < 0 ∨ fan > 5
    · rw [if_pos h1] at h
      exact absurd rfl h
    · rw [if_neg h1] at h ⊢
      by_cases h2 : mode < 0 ∨ mode > 2
      · rw [if_pos h2] at h
        exact absurd rfl h
      · rw [if_neg h2]
        exact ⟨_, rfl⟩

/-- Witness for C4's amended theorem at concrete inputs. -/
theorem clear_discipline_amended_witness :
    (leakLedConfig.apply.head? = some Action.clear ∧
      countClears leakLedConfig.apply = 1) ∧
    (∃ f, (set_speed_percent 0 50).1 =
      [Action.clear, Action.write f, Action.read READ_LENGTH]) ∧
    (∃ f, (set_speed_graph 0 0 [20, 20, 20, 20, 20, 20] [500, 500, 500, 500, 500, 500]).1 =
      [Action.clear, Action.write f, Action.read READ_LENGTH]) ∧
    (∃ f, (get_temperature 0 []).1 =
      [Action.clear, Action.write f, Action.read READ_LENGTH]) ∧
    (∃ f, (get_fan_speed_rpm 0 []).1 =
      [Action.clear, Action.write f, Action.read READ_LENGTH]) ∧
    (∃ f, (notify_led_temperature 0 25).1 = [Action.write f, Action.read READ_LENGTH]) ∧
    (∃ f, (send_temperature_info 0 30).1 = [Action.write f, Action.read READ_LENGTH]) ∧
    (∃ f, (set_fan_mode 0 1).1 = [Action.write f, Action.read READ_LENGTH]) :=
  ⟨clear_discipline_amended.1 leakLedConfig,
   clear_discipline_amended.2.1 0 50 (by decide),
   clear_discipline_amended.2.2.1 0 0 [20, 20, 20, 20, 20, 20]
     [500, 500, 500, 500, 500, 500] (by decide),
   clear_discipline_amended.2.2.2.1 0 [] (by decide),
   clear_discipline_amended.2.2.2.2.1 0 [],
   clear_discipline_amended.2.2.2.2.2.1 0 25 (by decide),
   clear_discipline_amended.2.2.2.2.2.2.1 0 30 (by decide),
   clear_discipline_amended.2.2.2.2.2.2.2 0 1 (by decide)⟩

/-- Claim C5: applying an LED configuration with N group configs is exactly
one stale-response clear followed by a strict write-read burst of 4 + N + 1
frames whose command bytes are, in order: group clear (0x37), pixel clear
(0x34), brightness (0x39), group mode (0x38), N group-mode frames (0x35) in
caller order, trigger (0x33). The trace is a pure function of the
configuration: no decision depends on response content. -/
theorem led_apply_sequence (cfg : LedConfig) :
    cfg.apply = Action.clear :: wrSeq (ledFrames cfg) ∧
    (ledFrames cfg).map (fun f => f.getD 0 0) =
      [Command.SET_LED_GROUP_CLEAR, Command.SET_LED_CLEAR, Command.SET_LED_BRIGHTNESS,
        Command.SET_LED_GROUP_MODE] ++
      List.replicate cfg.fanConfigs.length Command.SET_LED_MODE ++
      [Command.SET_LED_TRIGGER] := by
  refine ⟨led_apply_eq cfg, ?_⟩
  unfold ledFrames
  simp only [List.map_append, groupFrameList_cmd]
  rfl

/-- Claim C6: the spec's end-to-end curve scenario produces exactly the
expected frame. -/
theorem set_speed_graph_example_frame :
    set_speed_graph 0 0 [20, 30, 40, 60, 80, 100] [800, 1000, 1250, 1500, 2000, 2500] =
      ([Action.clear, Action.write graphExampleFrame, Action.read READ_LENGTH], none) := by
  decide

/-- Claim C7, counterexample: at t = -50 the encoder raises OverflowError
(`int.to_bytes` cannot encode a negative value), so decode(encode(-50)) is
not -50. -/
theorem temp_roundtrip_negative_cex :
    temp_roundtrip (-50) = .error PyError.overflowError ∧
    temp_roundtrip (-50) ≠ .ok ((-50 : Int) : ℚ) := by
  refine ⟨rfl, ?_⟩
  intro h
  rw [show temp_roundtrip (-50) = .error PyError.overflowError from rfl] at h
  exact Except.noConfusion h

/-- Claim C7 (amended): for temperatures t in [0, 650] the encode/decode
round-trip is exact. -/
theorem temp_roundtrip_amended (t : Int) (h0 : 0 ≤ t) (h1 : t ≤ 650) :
    temp_roundtrip t = .ok (t : ℚ) := by
  have hn : ¬ (t * 100 < 0 ∨ t * 100 > 65535) := by omega
  unfold temp_roundtrip temp_encode to_bytes_be2
  rw [if_neg hn]
  simp only [Except.map, temp_decode]
  congr 1
  have hmod : (t * 100).toNat / 256 * 256 + (t * 100).toNat % 256 = (t * 100).toNat := by
    omega
  have hcast : (((t * 100).toNat : ℕ) : ℚ) = (t : ℚ) * 100 := by
    have h2 : ((t * 100).toNat : ℤ) = t * 100 := Int.toNat_of_nonneg (by omega)
    exact_mod_cast congrArg (fun z : ℤ => (z : ℚ)) h2
  have h4 : (((t * 100).toNat / 256 * 256 + (t * 100).toNat % 256 : ℕ) : ℚ) = (t : ℚ) * 100 := by
    rw [hmod]
    exact hcast
  push_cast at h4
  rw [h4, mul_div_assoc]
  norm_num

/-- Witness for C7's amended theorem at t = 650. -/
theorem temp_roundtrip_amended_witness :
    temp_roundtrip 650 = .ok ((650 : Int) : ℚ) :=
  temp_roundtrip_amended 650 (by decide) (by decide)

/-- Claim C8, counterexample: a thermometer slot whose status byte is 2 is
decoded as "unknown" (not "connected (4 pins)") and gets no temperature
sample, even though a reading is available. -/
theorem thermometer_code2_unknown_cex :
    get_thermometer_status [0, 2, 0, 0, 0] (fun _ => 37) =
      [⟨"Thermometer 1 status", SVal.str "unknown", ""⟩,
       ⟨"Thermometer 2 status", SVal.str "disconnected", ""⟩,
       ⟨"Thermometer 3 status", SVal.str "disconnected", ""⟩,
       ⟨"Thermometer 4 status", SVal.str "disconnected", ""⟩] := by
  rfl

/-- Claim C8 (amended): fan status bytes decode as 0 = disconnected,
1 = 3-pin, 2 = 4-pin, other = unknown, with a speed sample exactly when the
byte is 1 or 2; thermometer status bytes decode as 0 = disconnected,
1 = connected, other = unknown, with a temperature sample exactly when the
byte is 1. Neither decoder can raise. -/
theorem status_decoding_amended :
    (∀ (resp : List Nat) (speedOf : Nat → Nat),
      get_fan_status resp speedOf =
        (List.range' 1 6).flatMap (fun i => fanSlotSpec i (resp.getD i 0) speedOf)) ∧
    (∀ (resp : List Nat) (tempOf : Nat → ℚ),
      get_thermometer_status resp tempOf =
        (List.range' 1 4).flatMap (fun i => thermoSlotSpec i (resp.getD i 0) tempOf)) :=
  ⟨get_fan_status_eq, get_thermometer_status_eq⟩

/-- Claim C9: whenever a set operation rejects its arguments with
ValueError, its transport trace is empty: no clear, no write, no read. -/
theorem validation_no_transport :
    (∀ (channel duty : Int) (m : String),
      (set_speed_percent channel duty).2 = some (.valueError m) →
      (set_speed_percent channel duty).1 = []) ∧
    (∀ (thermometer fan : Int) (temps speeds : List Int) (m : String),
      (set_speed_graph thermometer fan temps speeds).2 = some (.valueError m) →
      (set_speed_graph thermometer fan temps speeds).1 = []) ∧
    (∀ (fan speed : Int) (m : String),
      (set_speed_rpm fan speed).2 = some (.valueError m) →
      (set_speed_rpm fan speed).1 = []) ∧
    (∀ (channel temperature : Int) (m : String),
      (notify_led_temperature channel temperature).2 = some (.valueError m) →
      (notify_led_temperature channel temperature).1 = []) ∧
    (∀ (sensor_index temperature : Int) (m : String),
      (send_temperature_info sensor_index temperature).2 = some (.valueError m) →
      (send_temperature_info sensor_index temperature).1 = []) ∧
    (∀ (fan mode : Int) (m : String),
      (set_fan_mode fan mode).2 = some (.valueError m) →
      (set_fan_mode fan mode).1 = []) := by
  refine ⟨?_, ?_, ?_, ?_, ?_, ?_⟩
  · intro channel duty m h
    unfold set_speed_percent at h ⊢
    by_cases h1 : channel < 0 ∨ channel > 5
    · rw [if_pos h1]
    · rw [if_neg h1] at h ⊢
      by_cases h2 : duty > 100 ∨ duty < 0
      · rw [if_pos h2]
      · rw [if_neg h2] at h
        simp at h
  · intro thermometer fan temps speeds m h
    unfold set_speed_graph at h ⊢
    by_cases h1 : fan < 0 ∨ fan > 6
    · rw [if_pos h1]
    · rw [if_neg h1] at h ⊢
      by_cases h2 : thermometer < 0 ∨ thermometer > 3
      · rw [if_pos h2]
      · rw [if_neg h2] at h ⊢
        by_cases h3 : temps.length ≠ 6
        · rw [if_pos h3]
        · rw [if_neg h3] at h ⊢
          by_cases h4 : speeds.length ≠ 6
          · rw [if_pos h4]
          · rw [if_neg h4] at h ⊢
            cases hg : graphFill temps speeds ((((zeros WRITE_LENGTH).set
              0 Command.SET_FAN_SPEED_GRAPH).set 1 fan.toNat).set 2 thermometer.toNat) with
            | error e =>
              rfl
            | ok buf =>
              rw [hg] at h
              simp at h
  · intro fan speed m h
    unfold set_speed_rpm at h ⊢
    by_cases h1 : fan < 0 ∨ fan > 5
    · rw [if_pos h1]
    · rw [if_neg h1] at h ⊢
      by_cases h2 : speed < 0
      · rw [if_pos h2]
      · rw [if_neg h2] at h ⊢
        by_cases h3 : speed > 65535
        · rw [if_pos h3]
        · rw [if_neg h3]
  · intro channel temperature m h
    unfold notify_led_temperature at h ⊢
    by_cases h1 : channel < 0 ∨ channel > 1
    · rw [if_pos h1]
    · rw [if_neg h1] at h ⊢
      by_cases h2 : temperature < 0 ∨ temperature > 65535
      · rw [if_pos h2]
      · rw [if_neg h2] at h
        simp at h
  · intro sensor_index temperature m h
    unfold send_temperature_info at h ⊢
    by_cases h1 : sensor_index > 255 ∨ sensor_index < 0
    · rw [if_pos h1]
    · rw [if_neg h1] at h ⊢
      cases hg : temp_encode temperature with
      | error e =>
        rfl
      | ok tb =>
        rw [hg] at h
        simp at h
  · intro fan mode m h
    unfold set_fan_mode at h ⊢
    by_cases h1 : fan < 0 ∨ fan > 5
    · rw [if_pos h1]
    · rw [if_neg h1] at h ⊢
      by_cases h2 : mode < 0 ∨ mode > 2
      · rw [if_pos h2]
      · rw [if_neg h2] at h
        simp at h

/-- Witness for C9 at concrete invalid inputs for each operation. -/
theorem validation_no_transport_witness :
    (set_speed_percent 7 50).1 = [] ∧
    (set_speed_graph 0 7 [] []).1 = [] ∧
    (set_speed_rpm (-1) 500).1 = [] ∧
    (notify_led_temperature 5 20).1 = [] ∧
    (send_temperature_info (-1) 20).1 = [] ∧
    (set_fan_mode 9 1).1 = [] :=
  ⟨validation_no_transport.1 7 50 "Channel must be in range [0, 5]" (by rfl),
   validation_no_transport.2.1 0 7 [] [] "fan number should be in range [0, 5]" (by rfl),
   validation_no_transport.2.2.1 (-1) 500 "fan must be in range [0, 5]" (by rfl),
   validation_no_transport.2.2.2.1 5 20 "channel must be 0 or 1" (by rfl),
   validation_no_transport.2.2.2.2.1 (-1) 20
     "sensor_index must be in range [0, 255] (probably less)" (by rfl),
   validation_no_transport.2.2.2.2.2 9 1 "fan must be in range [0..5]" (by rfl)⟩

/-- Claim C10: LED group offsets are a 12-stride mapping of fan slots
(slot i maps to 0x0C * i, so slot 3 maps to 0x24, not 0x03); a slot-3
group frame carries 0x24 at byte 2, while the linear fan index of a speed
frame carries 3 at byte 1. -/
theorem fan_id_strided_mapping :
    (∀ i : Fin 6, (fanIDOfSlot i).value = 0x0C * i.val) ∧
    (fanIDOfSlot 3).value = 0x24 ∧ (fanIDOfSlot 3).value ≠ 0x03 ∧
    ((writtenFrames slot3LedConfig.apply).getD 4 []).getD 2 0 = 0x24 ∧
    (writtenFrames
      (set_speed_graph 0 3 [20, 20, 20, 20, 20, 20] [500, 500, 500, 500, 500, 500]).1).map
      (fun f => f.getD 1 0) = [3] := by
  decide

end CommanderPro
